import Mathlib

/-!
# Verification of the SPACShortModel signal-extraction and escalation core

Shallow embedding of `src/slidemodel` (facts extraction, the four condition
evaluators and the escalation state machine) together with proofs about the
behaviour the specification describes.

Conventions of the embedding:
* Python's loosely-typed JSON values are modelled by the inductive `PyObj`.
  Machine floats are modelled by `ℚ`; a float `NaN` is the constructor
  `PyObj.nan`.  A numeric string (one that `float()` would parse) is
  represented directly as `PyObj.num`, and any string `float()` rejects as
  `PyObj.str`.
* Python exceptions are modelled with `Except PyErr`; `KeyError` carries the
  list of names referenced by its message, and `TypeError` carries nothing.
* Python string comparison (`<` on `str`) is code-point lexicographic; it is
  embedded as `chars_lt` on the underlying character lists.
-/

/-- Code-point lexicographic strict order on character lists: the order Python
uses to compare strings (`filed_new > filed_old`, `points.sort`). -/
def chars_lt : List Char → List Char → Bool
  | [], [] => false
  | [], _ :: _ => true
  | _ :: _, [] => false
  | a :: as, b :: bs => if a < b then true else if b < a then false else chars_lt as bs

/-- Python `s < t` on strings. -/
def str_lt (s t : String) : Bool := chars_lt s.data t.data

/-- Python `s <= t` on strings (total order complement of `str_lt`). -/
def str_le (s t : String) : Bool := !(str_lt t s)

/-! ## Loosely-typed Python values -/

/-- A Python/JSON value as it appears in a raw SEC company-facts document.
`num` covers every value `float()` accepts (ints, floats, numeric strings),
`nan` is a float NaN, `str` is a string `float()` rejects. -/
inductive PyObj where
  | dict (entries : List (String × PyObj))
  | arr (items : List PyObj)
  | num (q : ℚ)
  | nan
  | str (s : String)
  | none

/-- Python exceptions raised by the embedded code.  `keyError` carries the
name(s) its message refers to. -/
inductive PyErr where
  | keyError (names : List String)
  | typeError
deriving DecidableEq

/-- First-match association-list lookup: Python dict indexing (dict keys are
unique, so first-match agrees with the dict). -/
def alookup {α : Type} : List (String × α) → String → Option α
  | [], _ => Option.none
  | (k, v) :: rest, key => if k = key then some v else alookup rest key

/-- Python truthiness (`if s:`, `if not end:`, `x or y`). -/
def PyObj.truthy : PyObj → Bool
  | .dict es => !es.isEmpty
  | .arr l => !l.isEmpty
  | .num q => q != 0
  | .nan => true
  | .str s => !s.isEmpty
  | .none => false

/-- Python `d.get(k)` on a dict, returning `None` when absent.  Every call
site in the source guards with `isinstance(d, dict)` first; on a non-dict the
embedding returns `None` (the Python `AttributeError` path is unreachable). -/
def PyObj.get : PyObj → String → PyObj
  | .dict es, k => (alookup es k).getD .none
  | _, _ => .none

/-- Python `x[k]` subscription: `KeyError` on a dict without the key,
`TypeError` when `x` is not a dict (list/str/num/None subscripted by a
string). -/
def PyObj.getItem : PyObj → String → Except PyErr PyObj
  | .dict es, k =>
    match alookup es k with
    | some v => .ok v
    | Option.none => .error (.keyError [k])
  | _, _ => .error .typeError

/-- `str(x or "")` as applied to the `form`/`fp`/`filed` fields.  A falsy
value gives `""`; a non-string truthy value renders through `str()` as some
numeric/container repr — every such repr fails all the prefix/equality tests
the source applies to these fields, so `"0"` is used as a stand-in. -/
def str_or_empty (o : PyObj) : String :=
  if o.truthy then (match o with | .str s => s | _ => "0") else ""

/-- Python `s.startswith(p)`. -/
def starts_with (s p : String) : Bool := p.data.isPrefixOf s.data

/-! ## `features/facts_extract.py` -/

namespace FactsExtract

/-- `QuarterPoint = Tuple[str, float]  # (period_end_date, value)` -/
abbrev QuarterPoint := String × ℚ

/-- `safe_float`: `float(v)` with NaN and unparsable values mapped to `None`.
`PyObj.num` is exactly the class of values `float()` accepts (see module
comment), so the embedding reads off the constructor. -/
def safe_float : PyObj → Option ℚ
  | .num q => some q
  | _ => Option.none

/-- `safe_div`: division that yields `None` on a zero denominator. -/
def safe_div (a b : ℚ) : Option ℚ :=
  if b = 0 then Option.none else some (a / b)

/-- `pct_change`: percentage change with a zero previous value giving `None`. -/
def pct_change (prev curr : ℚ) : Option ℚ :=
  if |prev| = 0 then Option.none else some ((curr - prev) / |prev| * 100)

/-- `_normalize_us_gaap`: accept the full company-facts payload, the
facts-only shape, or the us-gaap dict itself, returning the us-gaap dict's
entries (a non-dict input yields `{}`). -/
def _normalize_us_gaap (obj : PyObj) : List (String × PyObj) :=
  match obj with
  | .dict es =>
    match alookup es "facts" with
    | some (.dict fes) =>
      match alookup fes "us-gaap" with
      | some (.dict ges) => ges
      | _ =>
        match alookup es "us-gaap" with
        | some (.dict ges2) => ges2
        | _ => es
    | _ =>
      match alookup es "us-gaap" with
      | some (.dict ges2) => ges2
      | _ => es
  | _ => []

/-- `_is_quarterish`: keep items whose form is a 10-Q/10-K/20-F (amended forms
included) and whose fiscal-period marker is a quarter label, `FY`, or absent. -/
def _is_quarterish (item : PyObj) : Bool :=
  let form := str_or_empty (item.get "form")
  let fp := str_or_empty (item.get "fp")
  (starts_with form "10-Q" || starts_with form "10-K" || starts_with form "20-F")
    && (starts_with fp "Q" || fp == "FY" || fp == "")

/-- `str(item.get("filed") or "")`. -/
def filedOf (item : PyObj) : String := str_or_empty (item.get "filed")

/-- The period-end key the dedup loop uses (`end = item.get("end")`), `none`
when the item is skipped because `end` is falsy.  A non-string truthy `end`
(which would later make Python's sort compare heterogeneous keys) is modelled
as unusable. -/
def endKeyOf (item : PyObj) : Option String :=
  match item.get "end" with
  | .str s => if s.isEmpty then Option.none else some s
  | _ => Option.none

/-- One update of the `by_end` dict: a later point replaces the stored one
only when its filing date is non-empty and strictly greater (or the stored
filing date is empty). -/
def dedupInsert : List (String × PyObj) → String → PyObj → List (String × PyObj)
  | [], e, item => [(e, item)]
  | (k, old) :: rest, e, item =>
    if k = e then
      if filedOf item != "" && (filedOf old == "" || str_lt (filedOf old) (filedOf item))
      then (k, item) :: rest
      else (k, old) :: rest
    else (k, old) :: dedupInsert rest e item

/-- The filter guards of the dedup loop (`isinstance(item, dict)`,
`_is_quarterish`, truthy `end`, parsable `val`): the key under which the
item enters `by_end`, or `none` when the loop `continue`s. -/
def keepKey (item : PyObj) : Option String :=
  match item with
  | .dict _ =>
    if _is_quarterish item then
      match endKeyOf item, safe_float (item.get "val") with
      | some e, some _ => some e
      | _, _ => Option.none
    else Option.none
  | _ => Option.none

/-- The dedup loop of `_extract_points_from_tag_obj`: skip items `keepKey`
rejects, fold the rest through `dedupInsert`. -/
def dedupFold (by_end : List (String × PyObj)) : List PyObj → List (String × PyObj)
  | [] => by_end
  | item :: rest =>
    match keepKey item with
    | some e => dedupFold (dedupInsert by_end e item) rest
    | Option.none => dedupFold by_end rest

/-- The ascending-by-date ordering used by `points.sort(key=lambda x: x[0])`
(keys are unique at every call site, so stability never matters). -/
def pointLe (a b : QuarterPoint) : Prop := str_le a.1 b.1 = true

instance : DecidableRel pointLe := fun a b => instDecidableEqBool (str_le a.1 b.1) true

/-- `_extract_points_from_tag_obj`: choose a unit (preferring USD), filter to
quarterly-cadence points, deduplicate by period-end date, and sort ascending
by date. -/
def _extract_points_from_tag_obj (tag_obj : PyObj) : List QuarterPoint :=
  match (match tag_obj.get "units" with | PyObj.none => PyObj.dict [] | u => u) with
  | .dict units =>
    if units.isEmpty then []
    else
      let preferred := ["USD", "USD/shares", "shares", "pure"]
      let fromPreferred := preferred.findSome? fun k =>
        match alookup units k with
        | some (.arr arr) => if arr.isEmpty then Option.none else some k
        | _ => Option.none
      let unit_key := match fromPreferred with
        | some k => some k
        | Option.none => units.findSome? fun (kv : String × PyObj) =>
            match kv.2 with
            | .arr arr => if arr.isEmpty then Option.none else some kv.1
            | _ => Option.none
      match unit_key with
      | Option.none => []
      | some k =>
        match alookup units k with
        | some (.arr raw) =>
          let by_end := dedupFold [] raw
          let points := by_end.filterMap fun (ei : String × PyObj) =>
            (safe_float (ei.2.get "val")).map fun v => (ei.1, v)
          List.insertionSort pointLe points
        | _ => []
  | _ => []

/-- `quarterly_points(facts_or_tag_obj, tag=None)`: with a tag, resolve the
tag object through `_normalize_us_gaap`; without one, extract directly —
returning `[]` whenever the single argument is not a dict. -/
def quarterly_points (facts_or_tag_obj : PyObj) (tag : Option String) : List QuarterPoint :=
  match tag with
  | Option.none =>
    match facts_or_tag_obj with
    | .dict _ => _extract_points_from_tag_obj facts_or_tag_obj
    | _ => []
  | some t =>
    let us_gaap := _normalize_us_gaap facts_or_tag_obj
    match alookup us_gaap t with
    | some (PyObj.dict tes) => _extract_points_from_tag_obj (PyObj.dict tes)
    | _ => []

/-- `latest_n_quarters`: the trailing `n` points (`series[-n:]`), `[]` for an
empty series or `n <= 0`. -/
def latest_n_quarters {α : Type} (series : List α) (n : Nat) : List α :=
  if series.isEmpty || n = 0 then [] else series.drop (series.length - n)

/-- `pick_tag_series`: first tag in priority order whose series has at least
2 points; otherwise `KeyError(f"No series found for tags: {list(tags)}")`. -/
def pick_tag_series (facts : PyObj) (tags : List String) :
    Except PyErr (String × List QuarterPoint) :=
  match tags.findSome? (fun t =>
      let s := quarterly_points facts (some t)
      if 2 ≤ s.length then some (t, s) else Option.none) with
  | some r => .ok r
  | Option.none => .error (.keyError tags)

end FactsExtract

/-! ## `features/condition1.py` -/

namespace Condition1

open FactsExtract

/-- Revenue tags tried in priority order. -/
def REVENUE_TAGS : List String :=
  ["Revenues", "SalesRevenueNet", "RevenueFromContractWithCustomerExcludingAssessedTax",
   "RevenueFromContractWithCustomerIncludingAssessedTax", "OperatingRevenues",
   "RevenuesAndOtherIncome", "TotalRevenuesAndOtherIncome", "RevenuesNetOfInterestExpense"]

def GROSS_PROFIT_TAGS : List String := ["GrossProfit"]

def OPERATING_INCOME_TAGS : List String := ["OperatingIncomeLoss"]

/-- `_two_quarter_revenue_deceleration`: with at least 3 points, true when the
newer quarter-over-quarter growth rate is strictly below the previous one;
an undefined growth rate (zero previous value) gives false. -/
def _two_quarter_revenue_deceleration (rev_series : List QuarterPoint) : Bool :=
  match rev_series.reverse with
  | (_, r3) :: (_, r2) :: (_, r1) :: _ =>
    match pct_change r1 r2, pct_change r2 r3 with
    | some g1, some g2 => decide (g2 < g1)
    | _, _ => false
  | _ => false

/-- The inner `margin` closure of `_two_quarter_margin_failure`:
`0.0` when revenue is zero, else `profit / revenue`. -/
def margin (profit revenue : ℚ) : ℚ :=
  if revenue = 0 then 0 else profit / revenue

/-- `_two_quarter_margin_failure`: with at least 3 points in both series,
align the last three by index and check that the margin worsens two quarters
in a row. -/
def _two_quarter_margin_failure (rev_series profit_series : List QuarterPoint) : Bool :=
  match rev_series.reverse, profit_series.reverse with
  | (_, r3) :: (_, r2) :: (_, r1) :: _, (_, p3) :: (_, p2) :: (_, p1) :: _ =>
    let m1 := margin p1 r1
    let m2 := margin p2 r2
    let m3 := margin p3 r3
    decide (m2 < m1) && decide (m3 < m2)
  | _, _ => false

/-- `_two_quarter_operating_loss_worsening`: operating income negative and
getting more negative over the last 2 quarters. -/
def _two_quarter_operating_loss_worsening (oi_series : List QuarterPoint) : Bool :=
  match oi_series.reverse with
  | (_, b) :: (_, a) :: _ => decide (a < 0) && decide (b < a)
  | _ => false

end Condition1

/-! ## `features/condition2.py` -/

namespace Condition2

open FactsExtract

def OPEX_TAGS : List String := ["OperatingExpenses", "OperatingCostsAndExpenses"]

def SGA_TAGS : List String := ["SellingGeneralAndAdministrativeExpense"]

def RD_TAGS : List String := ["ResearchAndDevelopmentExpense"]

def REVENUE_TAGS : List String :=
  ["Revenues", "SalesRevenueNet", "RevenueFromContractWithCustomerExcludingAssessedTax"]

/-- `_get_usd_series`: `facts["facts"]["us-gaap"][tag]["units"]["USD"]` with
`KeyError` caught to `None`; any `TypeError` (subscripting a non-dict on the
way down) propagates. -/
def _get_usd_series (facts : PyObj) (tag : String) : Except PyErr (Option PyObj) :=
  match (do
      let a ← facts.getItem "facts"
      let b ← a.getItem "us-gaap"
      let c ← b.getItem tag
      let d ← c.getItem "units"
      d.getItem "USD" : Except PyErr PyObj) with
  | .ok v => .ok (some v)
  | .error (.keyError _) => .ok Option.none
  | .error e => .error e

/-- `_pick_series`: first tag whose USD series is truthy, else
`KeyError(f"No series found for tags: {tags}")` naming all of `tags`. -/
def _pick_series (facts : PyObj) (tags : List String) : Except PyErr (String × PyObj) :=
  go tags
where
  go : List String → Except PyErr (String × PyObj)
    | [] => .error (.keyError tags)
    | t :: rest => do
      match ← _get_usd_series facts t with
      | some s => if s.truthy then pure (t, s) else go rest
      | Option.none => go rest

/-- `_values`: `[(p["end"], float(p["val"])) for p in points]`.  The `points`
this receives at run time are `QuarterPoint` *tuples*, so the very first
iteration subscripts a tuple with a string and raises `TypeError`; only an
empty list survives. -/
def _values (points : List QuarterPoint) : Except PyErr (List (String × ℚ)) :=
  match points with
  | [] => .ok []
  | _ :: _ => .error .typeError

/-- `_qoq_growth`: sequential growth rates, a zero previous value contributing
`0.0`. -/
def _qoq_growth (vals : List ℚ) : List ℚ :=
  (vals.zip vals.tail).map fun pc =>
    if pc.1 = 0 then 0 else (pc.2 - pc.1) / pc.1

/-- In-place dict update (`m[k] = v`): replaces the value at an existing key,
else appends. -/
def assoc_set {α : Type} : List (String × α) → String → α → List (String × α)
  | [], k, v => [(k, v)]
  | (k', v') :: rest, k, v =>
    if k' = k then (k', v) :: rest else (k', v') :: assoc_set rest k v

/-- A Python dict comprehension `{d: v for d, v in ps}`: last value per key
wins, first-occurrence position kept. -/
def dict_of_pairs (ps : List (String × ℚ)) : List (String × ℚ) :=
  ps.foldl (fun m dv => assoc_set m dv.1 dv.2) []

/-- Ordering used for `sorted(...)` over date strings. -/
def dateLe (s t : String) : Prop := str_le s t = true

instance : DecidableRel dateLe := fun s t => instDecidableEqBool (str_le s t) true

/-- The opex resolution loop: first tag in `OPEX_TAGS` with a truthy USD
series. -/
def findOpex (facts : PyObj) : List String → Except PyErr (Option (String × PyObj))
  | [] => .ok Option.none
  | t :: rest => do
    match ← _get_usd_series facts t with
    | some s => if s.truthy then pure (some (t, s)) else findOpex facts rest
    | Option.none => findOpex facts rest

structure C2Result where
  revenue_tag : String
  opex_tag : Option String
  opex_derived : Bool
  dates : List String
  revenue : List ℚ
  opex : List ℚ
  revenue_growth_qoq : List ℚ
  opex_growth_qoq : List ℚ
  opex_up_2q : Bool
  negative_leverage_2q : Bool
  condition_2 : Bool
deriving DecidableEq

/-- `condition_2_from_facts`: resolve revenue and an operating-expense series
(falling back to SG&A + R&D joined on shared dates), align by date, and flag
negative operating leverage.  Dict lookups on `rev_map`/`opex_map` happen
only at keys both maps contain, so the `getD 0` default is never taken.
The set-intersection iteration order (arbitrary in Python) is modelled by
iterating the first map; the result is date-sorted afterwards. -/
def condition_2_from_facts (facts : PyObj) : Except PyErr C2Result := do
  let rs ← _pick_series facts REVENUE_TAGS
  let rev_tag := rs.1
  let rev_q := latest_n_quarters (quarterly_points rs.2 Option.none) 8
  let rev ← _values rev_q
  let rev_map := dict_of_pairs rev
  let found ← findOpex facts OPEX_TAGS
  let tagAndMap ← (match found with
    | some ts => do
      let pts := latest_n_quarters (quarterly_points ts.2 Option.none) 8
      let vs ← _values pts
      pure (some ts.1, dict_of_pairs vs)
    | Option.none => pure ((Option.none : Option String), ([] : List (String × ℚ))))
  let resolved ← (if tagAndMap.2.isEmpty then do
      let sga ← _pick_series facts SGA_TAGS
      let rd ← _pick_series facts RD_TAGS
      let sga_pts := latest_n_quarters (quarterly_points sga.2 Option.none) 8
      let rd_pts := latest_n_quarters (quarterly_points rd.2 Option.none) 8
      let sga_map := dict_of_pairs (← _values sga_pts)
      let rd_map := dict_of_pairs (← _values rd_pts)
      let opex_map := (sga_map.filter fun dv => (alookup rd_map dv.1).isSome).foldl
        (fun m dv => assoc_set m dv.1 (dv.2 + ((alookup rd_map dv.1).getD 0))) []
      pure (some (sga.1 ++ "+" ++ rd.1), opex_map, true)
    else
      pure (tagAndMap.1, tagAndMap.2, false))
  let opex_tag := resolved.1
  let opex_map := resolved.2.1
  let derived := resolved.2.2
  let dates := List.insertionSort dateLe
    ((rev_map.map Prod.fst).filter fun d => (alookup opex_map d).isSome)
  let rev_vals := dates.map fun d => (alookup rev_map d).getD 0
  let opex_vals := dates.map fun d => (alookup opex_map d).getD 0
  let rev_growth := _qoq_growth rev_vals
  let opex_growth := _qoq_growth opex_vals
  let opex_up_2q :=
    match opex_vals.reverse with
    | o0 :: o1 :: o2 :: _ => decide (o1 < o0) && decide (o2 < o1)
    | _ => false
  let neg_leverage_2q :=
    match rev_growth.reverse, opex_growth.reverse with
    | r0 :: r1 :: _, o0 :: o1 :: _ => decide (r0 < o0) && decide (r1 < o1)
    | _, _ => false
  pure {
    revenue_tag := rev_tag
    opex_tag := opex_tag
    opex_derived := derived
    dates := dates
    revenue := rev_vals
    opex := opex_vals
    revenue_growth_qoq := rev_growth
    opex_growth_qoq := opex_growth
    opex_up_2q := opex_up_2q
    negative_leverage_2q := neg_leverage_2q
    condition_2 := opex_up_2q && neg_leverage_2q }

end Condition2

/-! ## `features/condition3.py` -/

namespace Condition3

open FactsExtract

def CAPEX_TAGS : List String := ["PaymentsToAcquirePropertyPlantAndEquipment"]

def RND_TAGS : List String := ["ResearchAndDevelopmentExpense"]

def OCF_TAGS : List String := ["NetCashProvidedByUsedInOperatingActivities"]

/-- `_get_usd_series` (duplicated verbatim from `condition2.py`). -/
def _get_usd_series (facts : PyObj) (tag : String) : Except PyErr (Option PyObj) :=
  match (do
      let a ← facts.getItem "facts"
      let b ← a.getItem "us-gaap"
      let c ← b.getItem tag
      let d ← c.getItem "units"
      d.getItem "USD" : Except PyErr PyObj) with
  | .ok v => .ok (some v)
  | .error (.keyError _) => .ok Option.none
  | .error e => .error e

/-- `_pick_series` (duplicated verbatim from `condition2.py`). -/
def _pick_series (facts : PyObj) (tags : List String) : Except PyErr (String × PyObj) :=
  go tags
where
  go : List String → Except PyErr (String × PyObj)
    | [] => .error (.keyError tags)
    | t :: rest => do
      match ← _get_usd_series facts t with
      | some s => if s.truthy then pure (t, s) else go rest
      | Option.none => go rest

/-- `_vals`: `quarterly_points(series)` receives the raw USD *list*, for
which `quarterly_points` returns `[]`; on a nonempty result the comprehension
`[float(p["val"]) for p in pts]` would subscript a tuple and raise
`TypeError`, so only `[]` survives. -/
def _vals (series : PyObj) : Except PyErr (List ℚ) :=
  match latest_n_quarters (quarterly_points series Option.none) 8 with
  | [] => .ok []
  | _ :: _ => .error .typeError

/-- `_flat_or_up`: at least 3 values with `v[-1] >= v[-2] >= v[-3]`. -/
def _flat_or_up (v : List ℚ) : Bool :=
  match v.reverse with
  | a :: b :: c :: _ => decide (b ≤ a) && decide (c ≤ b)
  | _ => false

/-- `_burn_persists`: at least 3 values with `v[-1] <= v[-2] <= v[-3]`. -/
def _burn_persists (v : List ℚ) : Bool :=
  match v.reverse with
  | a :: b :: c :: _ => decide (a ≤ b) && decide (b ≤ c)
  | _ => false

structure C3Result where
  capex_tag : String
  rnd_tag : Option String
  ocf_tag : String
  capex_continues_2q : Bool
  rnd_continues_2q : Bool
  cash_burn_persists_2q : Bool
  no_slope_improvement : Bool
  condition_3 : Bool
deriving DecidableEq

/-- `condition_3_from_facts`: capex and operating-cash-flow series are
required (`KeyError` if missing), R&D is optional (its `KeyError` is caught;
a `TypeError` from `_vals` would propagate). -/
def condition_3_from_facts (facts : PyObj)
    (revenue_deceleration_2q margin_failure_2q : Bool) : Except PyErr C3Result := do
  let cs ← _pick_series facts CAPEX_TAGS
  let capex ← _vals cs.2
  let rnd_resolved ← (match (do
      let ts ← _pick_series facts RND_TAGS
      let v ← _vals ts.2
      pure (some ts.1, v) : Except PyErr (Option String × List ℚ)) with
    | .ok r => .ok r
    | .error (.keyError _) => .ok ((Option.none : Option String), ([] : List ℚ))
    | .error e => .error e)
  let rnd_tag := rnd_resolved.1
  let rnd := rnd_resolved.2
  let os ← _pick_series facts OCF_TAGS
  let ocf ← _vals os.2
  let discretionary_continues := _flat_or_up capex || _flat_or_up rnd
  let cash_burn_persists := _burn_persists ocf
  let no_slope_improvement := revenue_deceleration_2q && margin_failure_2q
  pure {
    capex_tag := cs.1
    rnd_tag := rnd_tag
    ocf_tag := os.1
    capex_continues_2q := _flat_or_up capex
    rnd_continues_2q := if rnd.isEmpty then false else _flat_or_up rnd
    cash_burn_persists_2q := cash_burn_persists
    no_slope_improvement := no_slope_improvement
    condition_3 := discretionary_continues && cash_burn_persists && no_slope_improvement }

end Condition3

/-! ## `models/types.py`, `models/signals.py`, `state/machine.py` -/

/-- `ModelState(str, Enum)` with values IGNORE, MONITOR, TRACK, TERMINAL. -/
inductive ModelState where
  | IGNORE
  | MONITOR
  | TRACK
  | TERMINAL
deriving DecidableEq

/-- `ModelState(s)` on a string: `none` models the `ValueError` raised for a
string that is not one of the four member values. -/
def ModelState.ofString (s : String) : Option ModelState :=
  if s = "IGNORE" then some .IGNORE
  else if s = "MONITOR" then some .MONITOR
  else if s = "TRACK" then some .TRACK
  else if s = "TERMINAL" then some .TERMINAL
  else Option.none

structure ConditionFlags where
  condition_1 : Bool
  condition_2 : Bool
  condition_3 : Bool
  condition_4 : Bool
deriving DecidableEq

/-- `EvaluationInput` (`prev_state` is a plain string in the source). -/
structure EvaluationInput where
  in_scope : Bool
  has_sufficient_data : Bool
  prev_state : String
  flags : ConditionFlags

/-- `next_state`: scope gate, data gate, the condition-1 hard disqualifier,
then dispatch on the previous state; a previous state matching none of the
explicit branches (that is, `IGNORE`) falls through to `return prev`. -/
def next_state (inp : EvaluationInput) : Option ModelState :=
  if !inp.in_scope then some .IGNORE
  else if !inp.has_sufficient_data then some .MONITOR
  else if !inp.flags.condition_1 then some .MONITOR
  else
    match ModelState.ofString inp.prev_state with
    | Option.none => Option.none
    | some prev =>
      match prev with
      | .MONITOR =>
        some (if inp.flags.condition_2 && inp.flags.condition_4
              then .TRACK else .MONITOR)
      | .TRACK => some (if inp.flags.condition_3 then .TERMINAL else .TRACK)
      | .TERMINAL => some .TERMINAL
      | .IGNORE => some .IGNORE

/-! ## Spec-side notions used to state the claims -/

/-- Each element strictly below its predecessor. -/
def strictly_decreasing : List ℚ → Bool
  | a :: b :: rest => decide (b < a) && strictly_decreasing (b :: rest)
  | _ => true

/-- The values of the trailing `n` points of a series, oldest first. -/
def lastVals (n : Nat) (s : List FactsExtract.QuarterPoint) : List ℚ :=
  ((s.map Prod.snd).reverse.take n).reverse

/-- The margins of the trailing three index-aligned periods, oldest first. -/
def marginsLast3 (rev profit : List FactsExtract.QuarterPoint) : List ℚ :=
  List.zipWith Condition1.margin (lastVals 3 profit) (lastVals 3 rev)

/-- The margin-failure rule as the spec words it for zero revenue ("If
revenue is zero at a period, that period is excluded rather than causing an
error"): drop zero-revenue periods from the trailing three, then require a
strict margin decrease over the at-least-two remaining periods.  Defined for
comparison with `Condition1._two_quarter_margin_failure`. -/
def margin_failure_spec_excluding_zero_revenue
    (rev profit : List FactsExtract.QuarterPoint) : Bool :=
  if rev.length < 3 || profit.length < 3 then false
  else
    let pairs := ((lastVals 3 profit).zip (lastVals 3 rev)).filter fun pr => pr.2 != 0
    let ms := pairs.map fun pr => pr.1 / pr.2
    decide (2 ≤ ms.length) && strictly_decreasing ms

/-! ## Concrete documents used by individual claims -/

/-- A plausible quarterly disclosure item: period end `e`, value `v`. -/
def mkItem (e : String) (v : ℚ) (fp : String) : PyObj :=
  .dict [("end", .str e), ("val", .num v), ("form", .str "10-Q"),
         ("fp", .str fp), ("filed", .str (e ++ "f"))]

/-- Capex series 10, 10, 11 over three quarters: flat-or-increasing. -/
def capexList : PyObj :=
  .arr [mkItem "2024-03-31" 10 "Q1", mkItem "2024-06-30" 10 "Q2",
        mkItem "2024-09-30" 11 "Q3"]

/-- Operating-cash-flow series 5, 4, 3 over three quarters:
flat-or-decreasing. -/
def ocfList : PyObj :=
  .arr [mkItem "2024-03-31" 5 "Q1", mkItem "2024-06-30" 4 "Q2",
        mkItem "2024-09-30" 3 "Q3"]

/-- A facts document with a flat-or-increasing capex series and a
flat-or-decreasing operating-cash-flow series. -/
def c7facts : PyObj := .dict [("facts", .dict [("us-gaap", .dict [
  ("PaymentsToAcquirePropertyPlantAndEquipment",
    .dict [("units", .dict [("USD", capexList)])]),
  ("NetCashProvidedByUsedInOperatingActivities",
    .dict [("units", .dict [("USD", ocfList)])])])])]

/-- Two disclosure points sharing period-end 2024-03-31 and filing date
2024-05-01: the first carries value 1. -/
def itemFirst : PyObj :=
  .dict [("end", .str "2024-03-31"), ("val", .num 1), ("form", .str "10-Q"),
         ("fp", .str "Q1"), ("filed", .str "2024-05-01")]

/-- The second point of the tie: same period end, same filing date, value 2,
encountered last. -/
def itemLast : PyObj :=
  .dict [("end", .str "2024-03-31"), ("val", .num 2), ("form", .str "10-Q"),
         ("fp", .str "Q1"), ("filed", .str "2024-05-01")]

/-- A more recently filed point for the same period end, value 9. -/
def itemNewer : PyObj :=
  .dict [("end", .str "2024-03-31"), ("val", .num 9), ("form", .str "10-Q"),
         ("fp", .str "Q1"), ("filed", .str "2024-06-01")]

/-- A tag object whose USD unit holds the two tied points, first then last. -/
def tiedTagObj : PyObj :=
  .dict [("units", .dict [("USD", .arr [itemFirst, itemLast])])]

/-! ## Order facts about Python string comparison -/

theorem chars_lt_asymm : ∀ x y : List Char, chars_lt x y = true → chars_lt y x = false := by
  intro x
  induction x with
  | nil => intro y _; cases y <;> simp [chars_lt]
  | cons a as ih =>
    intro y h
    cases y with
    | nil => simp [chars_lt] at h
    | cons b bs =>
      simp only [chars_lt] at h ⊢
      by_cases hab : a < b
      · simp [hab, asymm hab, not_lt_of_lt hab]
      · by_cases hba : b < a
        · simp [hab, hba] at h
        · simp [hab, hba] at h ⊢
          exact ih bs h

theorem chars_lt_conn : ∀ x y : List Char,
    chars_lt x y = false → chars_lt y x = false → x = y := by
  intro x
  induction x with
  | nil => intro y h _; cases y <;> simp_all [chars_lt]
  | cons a as ih =>
    intro y h1 h2
    cases y with
    | nil => simp [chars_lt] at h2
    | cons b bs =>
      simp only [chars_lt] at h1 h2
      by_cases hab : a < b
      · simp [hab] at h1
      · by_cases hba : b < a
        · simp [hab, hba] at h2
        · have : a = b := le_antisymm (le_of_not_lt hba) (le_of_not_lt hab)
          subst this
          simp [lt_irrefl] at h1 h2
          exact congrArg (a :: ·) (ih bs h1 h2)

theorem chars_lt_trans : ∀ x y z : List Char,
    chars_lt x y = true → chars_lt y z = true → chars_lt x z = true := by
  intro x
  induction x with
  | nil =>
    intro y z hxy hyz
    cases y with
    | nil => simp [chars_lt] at hxy
    | cons b bs => cases z with
      | nil => simp [chars_lt] at hyz
      | cons c cs => simp [chars_lt]
  | cons a as ih =>
    intro y z hxy hyz
    cases y with
    | nil => simp [chars_lt] at hxy
    | cons b bs =>
      cases z with
      | nil => simp [chars_lt] at hyz
      | cons c cs =>
        simp only [chars_lt] at hxy hyz ⊢
        by_cases hab : a < b <;> by_cases hbc : b < c
        · simp [lt_trans hab hbc]
        · have hcb : ¬ c < b := by
            intro hcb
            by_cases hbc' : b < c
            · exact hbc hbc'
            · simp [hbc', hcb] at hyz
          have : b = c := by
            by_cases h' : b < c
            · exact absurd h' hbc
            · exact le_antisymm (le_of_not_lt hcb) (le_of_not_lt h')
          subst this
          simp [hab]
        · by_cases hba : b < a
          · simp [hab, hba] at hxy
          · have : a = b := le_antisymm (le_of_not_lt hba) (le_of_not_lt hab)
            subst this
            simp [hbc]
        · by_cases hba : b < a
          · simp [hab, hba] at hxy
          · have hab' : a = b := le_antisymm (le_of_not_lt hba) (le_of_not_lt hab)
            subst hab'
            by_cases hcb : c < a
            · simp [hbc, hcb] at hyz
            · have : a = c := le_antisymm (le_of_not_lt hcb) (le_of_not_lt hbc)
              subst this
              simp [lt_irrefl] at hxy hyz ⊢
              exact ih bs cs hxy hyz

theorem str_data_inj {s t : String} (h : s.data = t.data) : s = t := by
  cases s; cases t; exact congrArg String.mk h

theorem str_lt_of_le_of_ne {s t : String} (hle : str_le s t = true) (hne : s ≠ t) :
    str_lt s t = true := by
  simp only [str_le, str_lt, Bool.not_eq_true'] at hle ⊢
  cases h : chars_lt s.data t.data with
  | true => rfl
  | false => exact absurd (str_data_inj (chars_lt_conn _ _ h hle)) hne

instance : IsTotal FactsExtract.QuarterPoint FactsExtract.pointLe where
  total a b := by
    simp only [FactsExtract.pointLe, str_le, Bool.not_eq_true', str_lt]
    cases h : chars_lt b.1.data a.1.data with
    | false => exact Or.inl rfl
    | true => exact Or.inr (chars_lt_asymm _ _ h)

instance : IsTrans FactsExtract.QuarterPoint FactsExtract.pointLe where
  trans a b c hab hbc := by
    simp only [FactsExtract.pointLe, str_le, Bool.not_eq_true', str_lt] at hab hbc ⊢
    cases hca : chars_lt c.1.data a.1.data with
    | false => rfl
    | true =>
      cases hab' : chars_lt a.1.data b.1.data with
      | true =>
        have h2 := chars_lt_trans _ _ _ hca hab'
        rw [h2] at hbc
        exact Bool.noConfusion hbc
      | false =>
        have h3 : a.1.data = b.1.data := chars_lt_conn _ _ hab' hab
        rw [← h3, hca] at hbc
        exact Bool.noConfusion hbc

/-- A facts document carrying only a revenue series: revenue resolves, no
direct operating-expense tag qualifies, and the SG&A tag is missing. -/
def c6RevOnlyFacts : PyObj := .dict [("facts", .dict [("us-gaap", .dict [
  ("Revenues", .dict [("units", .dict [("USD", .arr [mkItem "2024-03-31" 10 "Q1"])])])])])]

/-- A facts document carrying revenue and SG&A series but no R&D series. -/
def c6RevSgaFacts : PyObj := .dict [("facts", .dict [("us-gaap", .dict [
  ("Revenues", .dict [("units", .dict [("USD", .arr [mkItem "2024-03-31" 10 "Q1"])])]),
  ("SellingGeneralAndAdministrativeExpense",
    .dict [("units", .dict [("USD", .arr [mkItem "2024-03-31" 4 "Q1"])])])])])]

/-! ## Claims about the state machine -/

/-- C1: the scope gate, the data gate and the condition-1 hard gate, in that
priority order, override the other flags and the prior state: out of scope
gives IGNORE; in scope without sufficient data gives MONITOR; in scope with
data but condition_1 false gives MONITOR. -/
theorem C1_three_gates (prev : String) (hsd c1 c2 c3 c4 : Bool) :
    next_state ⟨false, hsd, prev, ⟨c1, c2, c3, c4⟩⟩ = some ModelState.IGNORE
    ∧ next_state ⟨true, false, prev, ⟨c1, c2, c3, c4⟩⟩ = some ModelState.MONITOR
    ∧ next_state ⟨true, true, prev, ⟨false, c2, c3, c4⟩⟩ = some ModelState.MONITOR :=
  ⟨rfl, rfl, rfl⟩

/-- C2: with all three gates passed, MONITOR advances to TRACK exactly when
condition_2 and condition_4 both hold (condition_3 not required), else stays
MONITOR; TRACK advances to TERMINAL exactly when condition_3 holds, else
stays TRACK. -/
theorem C2_monitor_track_transitions (c2 c3 c4 : Bool) :
    next_state ⟨true, true, "MONITOR", ⟨true, c2, c3, c4⟩⟩
      = some (if c2 && c4 then ModelState.TRACK else ModelState.MONITOR)
    ∧ (next_state ⟨true, true, "MONITOR", ⟨true, c2, c3, c4⟩⟩ = some ModelState.TRACK
        ↔ (c2 = true ∧ c4 = true))
    ∧ next_state ⟨true, true, "TRACK", ⟨true, c2, c3, c4⟩⟩
      = some (if c3 then ModelState.TERMINAL else ModelState.TRACK)
    ∧ (next_state ⟨true, true, "TRACK", ⟨true, c2, c3, c4⟩⟩ = some ModelState.TERMINAL
        ↔ c3 = true) := by
  cases c2 <;> cases c3 <;> cases c4 <;> exact ⟨rfl, by decide, rfl, by decide⟩

/-- C3 counterexample: from TERMINAL with in_scope true but
has_sufficient_data false, `next_state` returns MONITOR, not TERMINAL — the
data gate outranks the absorbing state. -/
theorem C3_counterexample :
    next_state ⟨true, false, "TERMINAL", ⟨true, true, true, true⟩⟩ = some ModelState.MONITOR
    ∧ some ModelState.MONITOR ≠ some ModelState.TERMINAL := by
  exact ⟨rfl, by decide⟩

/-- C3 amended: TERMINAL is absorbing only once the data gate and the
condition-1 hard gate pass; with has_sufficient_data false, or condition_1
false, the prior TERMINAL state is overridden to MONITOR. -/
theorem C3_terminal_absorbing_given_gates (c1 c2 c3 c4 : Bool) :
    next_state ⟨true, true, "TERMINAL", ⟨true, c2, c3, c4⟩⟩ = some ModelState.TERMINAL
    ∧ next_state ⟨true, false, "TERMINAL", ⟨c1, c2, c3, c4⟩⟩ = some ModelState.MONITOR
    ∧ next_state ⟨true, true, "TERMINAL", ⟨false, c2, c3, c4⟩⟩ = some ModelState.MONITOR :=
  ⟨rfl, rfl, rfl⟩

/-- C4 counterexample: from prior IGNORE with all gates and all flags true,
`next_state` returns IGNORE — it does not re-enter the MONITOR logic and
does not return TRACK. -/
theorem C4_counterexample :
    next_state ⟨true, true, "IGNORE", ⟨true, true, true, true⟩⟩ = some ModelState.IGNORE
    ∧ some ModelState.IGNORE ≠ some ModelState.TRACK := by
  exact ⟨rfl, by decide⟩

/-- C4 amended: from prior IGNORE with in_scope, has_sufficient_data and
condition_1 all true, `next_state` returns IGNORE for every combination of
the remaining flags (the dispatch has no IGNORE branch and falls through to
`return prev`). -/
theorem C4_ignore_prev_stays_ignore (c2 c3 c4 : Bool) :
    next_state ⟨true, true, "IGNORE", ⟨true, c2, c3, c4⟩⟩ = some ModelState.IGNORE :=
  rfl

/-! ## Claims about Condition 1's margin-failure signal -/

theorem exists_rev3 {α : Type} (s : List α) (h : 3 ≤ s.length) :
    ∃ a b c rest, s.reverse = a :: b :: c :: rest := by
  have hlen : s.reverse.length = s.length := s.length_reverse
  match hs : s.reverse with
  | [] => rw [hs] at hlen; simp at hlen; omega
  | [a] => rw [hs] at hlen; simp at hlen; omega
  | [a, b] => rw [hs] at hlen; simp at hlen; omega
  | a :: b :: c :: rest => exact ⟨a, b, c, rest, rfl⟩

theorem lastVals3_of_reverse (s : List FactsExtract.QuarterPoint)
    (a b c : FactsExtract.QuarterPoint) (rest : List FactsExtract.QuarterPoint)
    (h : s.reverse = a :: b :: c :: rest) :
    lastVals 3 s = [c.2, b.2, a.2] := by
  unfold lastVals
  have hmap : (s.map Prod.snd).reverse = a.2 :: b.2 :: c.2 :: rest.map Prod.snd := by
    rw [← List.map_reverse, h]
    simp
  rw [hmap]
  simp [List.take]

/-- C5 counterexample: margins 3, 2, 1 over constant revenue 1 are strictly
decreasing and the most recent margin is 1 (a 100 % margin, above any
low-margin threshold), yet the signal fires. -/
theorem C5_counterexample :
    Condition1._two_quarter_margin_failure
        [("2024-03-31", 1), ("2024-06-30", 1), ("2024-09-30", 1)]
        [("2024-03-31", 3), ("2024-06-30", 2), ("2024-09-30", 1)] = true
    ∧ Condition1.margin 1 1 = 1 := by
  constructor
  · unfold Condition1._two_quarter_margin_failure
    simp [Condition1.margin]
    norm_num
  · simp [Condition1.margin]

/-- C5 amended: the margin-failure signal is true exactly when the margins of
the trailing three index-aligned periods strictly decrease, with no low-margin
condition on the most recent margin — for every candidate threshold `t` there
is a triggering input whose latest margin exceeds `t`. -/
theorem C5_margin_failure_has_no_threshold :
    (∀ rev profit : List FactsExtract.QuarterPoint,
        Condition1._two_quarter_margin_failure rev profit = true ↔
          ∃ m1 m2 m3 : ℚ, marginsLast3 rev profit = [m1, m2, m3] ∧ m2 < m1 ∧ m3 < m2)
    ∧ (∀ t : ℚ, ∃ rev profit : List FactsExtract.QuarterPoint,
        strictly_decreasing (marginsLast3 rev profit) = true
        ∧ (marginsLast3 rev profit).getLast?.getD 0 > t
        ∧ Condition1._two_quarter_margin_failure rev profit = true) := by
  constructor
  · intro rev profit
    constructor
    · intro h
      unfold Condition1._two_quarter_margin_failure at h
      split at h
      · rename_i d3 r3 d2 r2 d1 r1 t1 e3 p3 e2 p2 e1 p1 t2 hr hp
        simp only [Bool.and_eq_true, decide_eq_true_eq] at h
        refine ⟨Condition1.margin p1 r1, Condition1.margin p2 r2,
          Condition1.margin p3 r3, ?_, h.1, h.2⟩
        rw [marginsLast3, lastVals3_of_reverse rev (d3, r3) (d2, r2) (d1, r1) t1 hr,
          lastVals3_of_reverse profit (e3, p3) (e2, p2) (e1, p1) t2 hp]
        rfl
      · exact absurd h (by simp)
    · rintro ⟨m1, m2, m3, hzip, h21, h32⟩
      have hlen := congrArg List.length hzip
      simp [marginsLast3, lastVals] at hlen
      have hrev : 3 ≤ rev.length := by omega
      have hprof : 3 ≤ profit.length := by omega
      obtain ⟨a, b, c, rest, hr⟩ := exists_rev3 rev hrev
      obtain ⟨a', b', c', rest', hp⟩ := exists_rev3 profit hprof
      have h1 := lastVals3_of_reverse rev a b c rest hr
      have h2 := lastVals3_of_reverse profit a' b' c' rest' hp
      rw [marginsLast3, h1, h2] at hzip
      simp [List.zipWith] at hzip
      obtain ⟨e1, e2, e3⟩ := hzip
      subst e1
      subst e2
      subst e3
      unfold Condition1._two_quarter_margin_failure
      rw [hr, hp]
      simp only [Bool.and_eq_true, decide_eq_true_eq]
      exact ⟨h21, h32⟩
  · intro t
    have hm : marginsLast3 [("a", 1), ("b", 1), ("c", 1)]
        [("a", t + 3), ("b", t + 2), ("c", t + 1)] = [t + 3, t + 2, t + 1] := by
      simp [marginsLast3, lastVals, Condition1.margin, List.take]
    refine ⟨[("a", 1), ("b", 1), ("c", 1)],
            [("a", t + 3), ("b", t + 2), ("c", t + 1)], ?_, ?_, ?_⟩
    · rw [hm]
      simp [strictly_decreasing]
      norm_num
    · rw [hm]
      simp
    · unfold Condition1._two_quarter_margin_failure
      simp [Condition1.margin]
      norm_num

/-! ## Claims about Condition 2 and Condition 3 -/

/-- C6 counterexample: on the empty facts document no revenue tag qualifies,
and `condition_2_from_facts` raises `KeyError` (naming the revenue tags)
instead of returning `condition_2 = false` with a missing diagnostic. -/
theorem C6_counterexample :
    Condition2.condition_2_from_facts (PyObj.dict []) =
      Except.error (PyErr.keyError Condition2.REVENUE_TAGS) := rfl

theorem except_bind_ok {e a b : Type} (x : a) (f : a → Except e b) :
    (Except.ok (ε := e) x >>= f) = f x := rfl

theorem except_bind_error {e a b : Type} (err : e) (f : a → Except e b) :
    (Except.error (α := a) err >>= f) = Except.error err := rfl

theorem pick_series_go_error (facts : PyObj) (tags : List String) :
    ∀ l : List String,
      (∀ t ∈ l, Condition2._get_usd_series facts t = Except.ok Option.none) →
      Condition2._pick_series.go facts tags l = Except.error (PyErr.keyError tags) := by
  intro l
  induction l with
  | nil => intro _; rfl
  | cons t rest ih =>
    intro h
    unfold Condition2._pick_series.go
    rw [h t (by simp)]
    exact ih fun u hu => h u (by simp [hu])

theorem pick_series_error_of_missing (facts : PyObj) (tags : List String)
    (h : ∀ t ∈ tags, Condition2._get_usd_series facts t = Except.ok Option.none) :
    Condition2._pick_series facts tags = Except.error (PyErr.keyError tags) :=
  pick_series_go_error facts tags tags h

/-- C6 amended: whenever a concept Condition 2 needs is entirely missing,
`condition_2_from_facts` raises `KeyError("No series found for tags: ...")`
naming the attempted tags, rather than returning `condition_2 = false` with
a missing diagnostic (the batch caller catches the `KeyError` and skips the
entity).  Covered branches: no candidate revenue tag resolves; revenue
resolves but neither a direct operating-expense tag nor the SG&A tag of the
fallback pair does; revenue and SG&A resolve but the R&D tag does not. -/
theorem C6_missing_concept_raises :
    (∀ facts : PyObj,
      (∀ t ∈ Condition2.REVENUE_TAGS,
          Condition2._get_usd_series facts t = Except.ok Option.none) →
      Condition2.condition_2_from_facts facts =
        Except.error (PyErr.keyError Condition2.REVENUE_TAGS))
    ∧ (∀ (facts rs : PyObj) (rt : String),
      Condition2._pick_series facts Condition2.REVENUE_TAGS = Except.ok (rt, rs) →
      FactsExtract.quarterly_points rs Option.none = [] →
      Condition2.findOpex facts Condition2.OPEX_TAGS = Except.ok Option.none →
      (∀ t ∈ Condition2.SGA_TAGS,
          Condition2._get_usd_series facts t = Except.ok Option.none) →
      Condition2.condition_2_from_facts facts =
        Except.error (PyErr.keyError Condition2.SGA_TAGS))
    ∧ (∀ (facts rs ss : PyObj) (rt st : String),
      Condition2._pick_series facts Condition2.REVENUE_TAGS = Except.ok (rt, rs) →
      FactsExtract.quarterly_points rs Option.none = [] →
      Condition2.findOpex facts Condition2.OPEX_TAGS = Except.ok Option.none →
      Condition2._pick_series facts Condition2.SGA_TAGS = Except.ok (st, ss) →
      (∀ t ∈ Condition2.RD_TAGS,
          Condition2._get_usd_series facts t = Except.ok Option.none) →
      Condition2.condition_2_from_facts facts =
        Except.error (PyErr.keyError Condition2.RD_TAGS)) := by
  refine ⟨?_, ?_, ?_⟩
  · intro facts h
    unfold Condition2.condition_2_from_facts
    rw [pick_series_error_of_missing facts Condition2.REVENUE_TAGS h, except_bind_error]
  · intro facts rs rt hrev hq hop hsga
    unfold Condition2.condition_2_from_facts
    rw [hrev, except_bind_ok]
    dsimp only
    rw [hq]
    rw [show FactsExtract.latest_n_quarters ([] : List FactsExtract.QuarterPoint) 8 = []
      from rfl]
    rw [show Condition2._values [] = Except.ok [] from rfl, except_bind_ok]
    rw [hop, except_bind_ok]
    dsimp only
    rw [pure_bind]
    dsimp only
    rw [if_pos (show (([] : List (String × ℚ)).isEmpty = true) from rfl)]
    rw [pick_series_error_of_missing facts Condition2.SGA_TAGS hsga, except_bind_error,
      except_bind_error]
  · intro facts rs ss rt st hrev hq hop hsga hrd
    unfold Condition2.condition_2_from_facts
    rw [hrev, except_bind_ok]
    dsimp only
    rw [hq]
    rw [show FactsExtract.latest_n_quarters ([] : List FactsExtract.QuarterPoint) 8 = []
      from rfl]
    rw [show Condition2._values [] = Except.ok [] from rfl, except_bind_ok]
    rw [hop, except_bind_ok]
    dsimp only
    rw [pure_bind]
    dsimp only
    rw [if_pos (show (([] : List (String × ℚ)).isEmpty = true) from rfl)]
    rw [hsga, except_bind_ok]
    dsimp only
    rw [pick_series_error_of_missing facts Condition2.RD_TAGS hrd, except_bind_error,
      except_bind_error]

/-- Witness for `C6_missing_concept_raises` at concrete facts documents, one
per covered branch. -/
theorem C6_missing_concept_raises_witness :
    Condition2.condition_2_from_facts (PyObj.dict [("cik", PyObj.num 77)]) =
      Except.error (PyErr.keyError Condition2.REVENUE_TAGS)
    ∧ Condition2.condition_2_from_facts c6RevOnlyFacts =
      Except.error (PyErr.keyError Condition2.SGA_TAGS)
    ∧ Condition2.condition_2_from_facts c6RevSgaFacts =
      Except.error (PyErr.keyError Condition2.RD_TAGS) :=
  ⟨C6_missing_concept_raises.1 (PyObj.dict [("cik", PyObj.num 77)]) (fun _ _ => rfl),
    C6_missing_concept_raises.2.1 c6RevOnlyFacts
      (.arr [mkItem "2024-03-31" 10 "Q1"]) "Revenues" rfl rfl rfl
      (by
        intro t ht
        rw [show t = "SellingGeneralAndAdministrativeExpense" from by
          simpa [Condition2.SGA_TAGS] using ht]
        rfl),
    C6_missing_concept_raises.2.2 c6RevSgaFacts
      (.arr [mkItem "2024-03-31" 10 "Q1"]) (.arr [mkItem "2024-03-31" 4 "Q1"])
      "Revenues" "SellingGeneralAndAdministrativeExpense" rfl rfl rfl rfl
      (by
        intro t ht
        rw [show t = "ResearchAndDevelopmentExpense" from by
          simpa [Condition2.RD_TAGS] using ht]
        rfl)⟩

/-- C7: on a facts document whose capex values (10, 10, 11) are
flat-or-increasing and whose operating-cash-flow values (5, 4, 3) are
flat-or-decreasing over the trailing 3 quarters, and with both Condition 1
sub-signals true, `condition_3_from_facts` still returns
`condition_3 = false`: `_vals` pipes the raw USD list through
`quarterly_points`, which returns `[]` for a non-dict argument, so every
extracted value list is empty and neither `_flat_or_up` nor `_burn_persists`
can ever hold. -/
theorem C7_condition3_false_on_qualifying_input :
    Condition3.condition_3_from_facts c7facts true true = Except.ok {
        capex_tag := "PaymentsToAcquirePropertyPlantAndEquipment"
        rnd_tag := Option.none
        ocf_tag := "NetCashProvidedByUsedInOperatingActivities"
        capex_continues_2q := false
        rnd_continues_2q := false
        cash_burn_persists_2q := false
        no_slope_improvement := true
        condition_3 := false }
    ∧ Condition3._flat_or_up [10, 10, 11] = true
    ∧ Condition3._burn_persists [5, 4, 3] = true := by
  refine ⟨rfl, ?_, ?_⟩
  · unfold Condition3._flat_or_up
    simp
    norm_num
  · unfold Condition3._burn_persists
    simp
    norm_num

/-! ## Claims about series resolution -/

/-- C8: when every tag in the priority list yields fewer than 2 usable
points, `pick_tag_series` fails deterministically with the error naming
every attempted tag (`KeyError(f"No series found for tags: {list(tags)}")`,
the spec's `InsufficientSeriesError`), returning no partial series. -/
theorem C8_pick_tag_series_insufficient (facts : PyObj) (tags : List String)
    (h : ∀ t ∈ tags, (FactsExtract.quarterly_points facts (some t)).length < 2) :
    FactsExtract.pick_tag_series facts tags = Except.error (PyErr.keyError tags) := by
  unfold FactsExtract.pick_tag_series
  have hnone : tags.findSome? (fun t =>
      let s := FactsExtract.quarterly_points facts (some t)
      if 2 ≤ s.length then some (t, s) else Option.none) = Option.none := by
    induction tags with
    | nil => rfl
    | cons t rest ih =>
      rw [List.findSome?_cons]
      have ht := h t (by simp)
      simp only []
      rw [if_neg (by omega)]
      exact ih (fun u hu => h u (by simp [hu]))
  rw [hnone]

/-- Witness for `C8_pick_tag_series_insufficient`: the empty facts document
yields no points for any tag. -/
theorem C8_pick_tag_series_insufficient_witness :
    FactsExtract.pick_tag_series (PyObj.dict []) ["Revenues", "GrossProfit"] =
      Except.error (PyErr.keyError ["Revenues", "GrossProfit"]) :=
  C8_pick_tag_series_insufficient (PyObj.dict []) ["Revenues", "GrossProfit"]
    (by
      intro t ht
      show (FactsExtract.quarterly_points (PyObj.dict []) (some t)).length < 2
      have : FactsExtract.quarterly_points (PyObj.dict []) (some t) = [] := rfl
      rw [this]
      norm_num)

/-! ## Claims about extraction: order and deduplication -/

theorem chars_lt_irrefl : ∀ x : List Char, chars_lt x x = false := by
  intro x
  induction x with
  | nil => rfl
  | cons a as ih => simp [chars_lt, lt_irrefl, ih]

theorem chars_lt_nil_right : ∀ x : List Char, chars_lt x [] = false := by
  intro x
  cases x <;> rfl

theorem alookup_none_iff {α : Type} :
    ∀ (l : List (String × α)) (k : String),
      alookup l k = Option.none ↔ k ∉ l.map Prod.fst := by
  intro l k
  induction l with
  | nil => simp [alookup]
  | cons hd tl ih =>
    obtain ⟨k', v⟩ := hd
    by_cases hk : k' = k
    · subst hk
      simp [alookup]
    · simp [alookup, hk, ih, Ne.symm hk]

theorem dedupInsert_keys (l : List (String × PyObj)) (e : String) (item : PyObj) :
    (FactsExtract.dedupInsert l e item).map Prod.fst =
      if e ∈ l.map Prod.fst then l.map Prod.fst else l.map Prod.fst ++ [e] := by
  induction l with
  | nil => simp [FactsExtract.dedupInsert]
  | cons hd tl ih =>
    obtain ⟨k, old⟩ := hd
    by_cases hk : k = e
    · subst hk
      unfold FactsExtract.dedupInsert
      simp only [if_pos rfl]
      by_cases hc : (FactsExtract.filedOf item != "" &&
          (FactsExtract.filedOf old == "" ||
            str_lt (FactsExtract.filedOf old) (FactsExtract.filedOf item))) = true
      · simp [hc]
      · simp only [Bool.not_eq_true] at hc
        simp [hc]
    · unfold FactsExtract.dedupInsert
      simp only [if_neg hk]
      by_cases hmem : e ∈ tl.map Prod.fst
      · simp [hmem, ih, Ne.symm hk]
      · simp [hmem, ih, Ne.symm hk]

theorem nodup_keys_dedupInsert (l : List (String × PyObj)) (e : String) (item : PyObj)
    (h : (l.map Prod.fst).Nodup) :
    ((FactsExtract.dedupInsert l e item).map Prod.fst).Nodup := by
  rw [dedupInsert_keys]
  by_cases hmem : e ∈ l.map Prod.fst
  · simpa [hmem] using h
  · simp [hmem, List.nodup_append, h]

theorem nodup_keys_dedupFold :
    ∀ (raw : List PyObj) (l : List (String × PyObj)),
      (l.map Prod.fst).Nodup → ((FactsExtract.dedupFold l raw).map Prod.fst).Nodup := by
  intro raw
  induction raw with
  | nil => intro l hl; exact hl
  | cons item rest ih =>
    intro l hl
    unfold FactsExtract.dedupFold
    cases hk : FactsExtract.keepKey item with
    | none => exact ih l hl
    | some e => exact ih _ (nodup_keys_dedupInsert l e item hl)

theorem keys_filterMap_points_sublist (l : List (String × PyObj)) :
    ((l.filterMap fun (ei : String × PyObj) =>
        (FactsExtract.safe_float (ei.2.get "val")).map fun v => (ei.1, v)).map
      Prod.fst).Sublist (l.map Prod.fst) := by
  induction l with
  | nil => simp
  | cons hd tl ih =>
    cases hsf : FactsExtract.safe_float (hd.2.get "val") with
    | none =>
      rw [List.filterMap_cons]
      simp only [hsf, Option.map_none']
      exact ih.cons hd.1
    | some v =>
      rw [List.filterMap_cons]
      simp only [hsf, Option.map_some']
      simpa using ih.cons₂ hd.1

theorem pairwise_sorted_points (raw : List PyObj) :
    List.Pairwise (fun a b : FactsExtract.QuarterPoint => str_lt a.1 b.1 = true)
      (List.insertionSort FactsExtract.pointLe
        ((FactsExtract.dedupFold [] raw).filterMap fun (ei : String × PyObj) =>
          (FactsExtract.safe_float (ei.2.get "val")).map fun v => (ei.1, v))) := by
  have hnodup0 : (((FactsExtract.dedupFold [] raw).map Prod.fst)).Nodup :=
    nodup_keys_dedupFold raw [] (by simp)
  have hnodup : ((((FactsExtract.dedupFold [] raw).filterMap fun (ei : String × PyObj) =>
      (FactsExtract.safe_float (ei.2.get "val")).map fun v => (ei.1, v)).map
        Prod.fst)).Nodup :=
    hnodup0.sublist (keys_filterMap_points_sublist _)
  have hsorted := List.sorted_insertionSort FactsExtract.pointLe
    ((FactsExtract.dedupFold [] raw).filterMap fun (ei : String × PyObj) =>
      (FactsExtract.safe_float (ei.2.get "val")).map fun v => (ei.1, v))
  have hperm := List.perm_insertionSort FactsExtract.pointLe
    ((FactsExtract.dedupFold [] raw).filterMap fun (ei : String × PyObj) =>
      (FactsExtract.safe_float (ei.2.get "val")).map fun v => (ei.1, v))
  have hnodup2 := ((hperm.map Prod.fst).nodup_iff).mpr hnodup
  rw [List.Nodup, List.pairwise_map] at hnodup2
  exact (hsorted.and hnodup2).imp fun hab => str_lt_of_le_of_ne hab.1 hab.2

theorem alookup_cons_self {α : Type} (k : String) (v : α) (tl : List (String × α)) :
    alookup ((k, v) :: tl) k = some v := by
  simp [alookup]

theorem alookup_cons_ne {α : Type} {k key : String} (hk : k ≠ key) (v : α)
    (tl : List (String × α)) :
    alookup ((k, v) :: tl) key = alookup tl key := by
  simp [alookup, hk]

/-- C9 amended: every extracted series is strictly ascending by period-end
date with no duplicate dates; within one date the stored point is replaced
only by a strictly more recently filed point (so the most recent filing
wins), and on a filing-date tie the FIRST point encountered is kept, not the
last. -/
theorem C9_extract_sorted_and_dedup :
    (∀ tag_obj : PyObj,
        List.Pairwise (fun a b : FactsExtract.QuarterPoint => str_lt a.1 b.1 = true)
          (FactsExtract._extract_points_from_tag_obj tag_obj))
    ∧ (∀ (by_end : List (String × PyObj)) (e : String) (item old : PyObj),
        alookup by_end e = some old →
        FactsExtract.filedOf item = FactsExtract.filedOf old →
        FactsExtract.dedupInsert by_end e item = by_end)
    ∧ (∀ (by_end : List (String × PyObj)) (e : String) (item old : PyObj),
        alookup by_end e = some old →
        str_lt (FactsExtract.filedOf old) (FactsExtract.filedOf item) = true →
        alookup (FactsExtract.dedupInsert by_end e item) e = some item) := by
  refine ⟨?_, ?_, ?_⟩
  · intro tag_obj
    unfold FactsExtract._extract_points_from_tag_obj
    dsimp only
    repeat' split
    any_goals exact List.Pairwise.nil
    exact pairwise_sorted_points _
  · intro by_end e item old hl hf
    induction by_end with
    | nil => simp [alookup] at hl
    | cons hd tl ih =>
      obtain ⟨k, o⟩ := hd
      by_cases hk : k = e
      · subst hk
        rw [alookup_cons_self] at hl
        injection hl with ho
        subst ho
        unfold FactsExtract.dedupInsert
        rw [if_pos rfl]
        have hcond : (FactsExtract.filedOf item != "" &&
            (FactsExtract.filedOf o == "" ||
              str_lt (FactsExtract.filedOf o) (FactsExtract.filedOf item))) = false := by
          rw [hf]
          cases hbe : (FactsExtract.filedOf o == "") with
          | true =>
            have hemp : FactsExtract.filedOf o = "" := by simpa using hbe
            simp [hemp]
          | false => simp [hbe, str_lt, chars_lt_irrefl]
        simp [hcond]
      · rw [alookup_cons_ne hk] at hl
        unfold FactsExtract.dedupInsert
        rw [if_neg hk, ih hl]
  · intro by_end e item old hl hlt
    induction by_end with
    | nil => simp [alookup] at hl
    | cons hd tl ih =>
      obtain ⟨k, o⟩ := hd
      by_cases hk : k = e
      · subst hk
        rw [alookup_cons_self] at hl
        injection hl with ho
        subst ho
        unfold FactsExtract.dedupInsert
        rw [if_pos rfl]
        have hne : (FactsExtract.filedOf item != "") = true := by
          cases hemp : FactsExtract.filedOf item == "" with
          | false => simp [bne, hemp]
          | true =>
            have h0 : FactsExtract.filedOf item = "" := by simpa using hemp
            rw [str_lt, h0, show ("" : String).data = [] from rfl,
              chars_lt_nil_right] at hlt
            exact Bool.noConfusion hlt
        rw [if_pos (by simp [hne, hlt])]
        exact alookup_cons_self k item tl
      · rw [alookup_cons_ne hk] at hl
        unfold FactsExtract.dedupInsert
        rw [if_neg hk, alookup_cons_ne hk]
        exact ih hl

/-- C9 counterexample: with two points sharing period-end date and filing
date, extraction keeps the FIRST one encountered (value 1), not the last
(value 2) as the claim states. -/
theorem C9_counterexample :
    FactsExtract._extract_points_from_tag_obj tiedTagObj = [("2024-03-31", (1 : ℚ))]
    ∧ (1 : ℚ) ≠ 2 := by
  refine ⟨rfl, by norm_num⟩

/-- Witness for `C9_extract_sorted_and_dedup` at concrete inputs: the tied
insert keeps the stored point, the strictly-newer insert replaces it. -/
theorem C9_extract_sorted_and_dedup_witness :
    FactsExtract.dedupInsert [("2024-03-31", itemFirst)] "2024-03-31" itemLast
        = [("2024-03-31", itemFirst)]
    ∧ alookup (FactsExtract.dedupInsert [("2024-03-31", itemFirst)] "2024-03-31" itemNewer)
        "2024-03-31" = some itemNewer :=
  ⟨C9_extract_sorted_and_dedup.2.1 [("2024-03-31", itemFirst)] "2024-03-31"
      itemLast itemFirst rfl rfl,
    C9_extract_sorted_and_dedup.2.2 [("2024-03-31", itemFirst)] "2024-03-31"
      itemNewer itemFirst rfl rfl⟩

/-! ## Claims about zero denominators -/

/-- C10 counterexample: at revenue series 2, 0, 5 and profit series 1, −1, 2
the zero-revenue middle period contributes a margin of `0.0` (so the code's
signal is false), whereas excluding that period as the claim states yields
margins ½, ⅖ — strictly decreasing — and the signal would be true. -/
theorem C10_counterexample :
    Condition1._two_quarter_margin_failure
        [("d1", 2), ("d2", 0), ("d3", 5)] [("d1", 1), ("d2", -1), ("d3", 2)] = false
    ∧ margin_failure_spec_excluding_zero_revenue
        [("d1", 2), ("d2", 0), ("d3", 5)] [("d1", 1), ("d2", -1), ("d3", 2)] = true
    ∧ Condition1.margin (-1) 0 = 0 := by
  refine ⟨?_, ?_, ?_⟩
  · unfold Condition1._two_quarter_margin_failure
    simp [Condition1.margin]
    norm_num
  · unfold margin_failure_spec_excluding_zero_revenue
    simp [lastVals, strictly_decreasing, List.take]
    norm_num
  · simp [Condition1.margin]

/-- C10 amended: a quarter-over-quarter growth rate whose previous value is
zero is `None` and makes the revenue-deceleration signal false
(non-triggering), and no computation raises; but a period whose revenue is
zero contributes a margin of `0.0` to the margin-failure computation instead
of being excluded. -/
theorem C10_zero_denominator_behaviour :
    (∀ c : ℚ, FactsExtract.pct_change 0 c = Option.none)
    ∧ (∀ (d1 d2 d3 : String) (a c : ℚ) (pre : List FactsExtract.QuarterPoint),
        Condition1._two_quarter_revenue_deceleration
          (pre ++ [(d1, a), (d2, 0), (d3, c)]) = false)
    ∧ (∀ p : ℚ, Condition1.margin p 0 = 0) := by
  refine ⟨?_, ?_, ?_⟩
  · intro c
    simp [FactsExtract.pct_change]
  · intro d1 d2 d3 a c pre
    unfold Condition1._two_quarter_revenue_deceleration
    have hrev : (pre ++ [(d1, a), (d2, 0), (d3, c)]).reverse
        = (d3, c) :: (d2, 0) :: (d1, a) :: pre.reverse := by
      simp
    rw [hrev]
    have hg2 : FactsExtract.pct_change 0 c = Option.none := by
      simp [FactsExtract.pct_change]
    cases hg1 : FactsExtract.pct_change a 0 with
    | none => simp [hg1, hg2]
    | some g => simp [hg1, hg2]
  · intro p
    simp [Condition1.margin]

/-- Witness for `C5_margin_failure_has_no_threshold` at concrete series:
margins 3, 2, 1 trigger the signal. -/
theorem C5_margin_failure_has_no_threshold_witness :
    Condition1._two_quarter_margin_failure
        [("q1", 1), ("q2", 1), ("q3", 1)] [("q1", 3), ("q2", 2), ("q3", 1)] = true :=
  (C5_margin_failure_has_no_threshold.1
      [("q1", 1), ("q2", 1), ("q3", 1)] [("q1", 3), ("q2", 2), ("q3", 1)]).mpr
    ⟨3, 2, 1, by simp [marginsLast3, lastVals, Condition1.margin, List.take],
      by norm_num, by norm_num⟩
